import Mathlib

/-!
# Shallow embedding of the Guardian Intel MCP server core

This file embeds the API-client and tool-dispatcher layer of the
`guardian-intel-mcp-server` repository:

* `src/guardian-intel-client.ts` — the `GuardianIntelClient` class
  (constructor, `handleApiError`, `isValidIpAddress`, `lookupIp`,
  `getTags`, `getTagDetails`, `getTagIps`), and
* `src/tools.ts` — the `GuardianIntelTools` class (`executeTool` and the
  four private handlers plus `getAggregatedThreatLevel`,
  `generateThreatSummary`, `getCategoryStats`, `getIntentStats`,
  `generateTagContext`).

Modelling conventions:

* JavaScript strings are Lean `String`s; `toLowerCase`/`toUpperCase` are
  modelled on the ASCII range (all string constants compared against in the
  source are ASCII).
* Asynchronous HTTP calls are modelled by passing the network as an explicit
  oracle function; a promise rejection is an `Except.error`.
* A thrown JavaScript value is `JsThrown`: either an `Error` instance
  carrying its `.message`, or any other value (`nonError`) carrying its
  string form.  All `throw new Error(m)` sites become `JsThrown.err m`.
* `undefined`/absent fields are `Option.none`.  JavaScript truthiness of a
  string (`if (s)`, `s || d`) is "non-empty"; of a number (`n || d`) it is
  "non-zero"; `NaN` is not modelled.
* Numbers appearing in pagination parameters are modelled as `Rat`, so that
  fractional inputs such as `5.7` are representable exactly.
-/

/-- A thrown JavaScript value as seen by a `catch` block: either an `Error`
instance (with its `.message`) or any other value (with its string form). -/
inductive JsThrown where
  | err (message : String)
  | nonError (stringForm : String)
deriving DecidableEq

/-- `error instanceof Error ? error.message : 'Unknown error'` — the text the
dispatcher extracts from a caught value (src/tools.ts, catch clause of
`executeTool`). -/
def jsErrorText : JsThrown → String
  | .err m => m
  | .nonError _ => "Unknown error"

/-- ASCII model of the per-character action of `String.prototype.toLowerCase`. -/
def jsToLowerChar (c : Char) : Char :=
  if 65 ≤ c.toNat ∧ c.toNat ≤ 90 then Char.ofNat (c.toNat + 32) else c

/-- ASCII model of the per-character action of `String.prototype.toUpperCase`. -/
def jsToUpperChar (c : Char) : Char :=
  if 97 ≤ c.toNat ∧ c.toNat ≤ 122 then Char.ofNat (c.toNat - 32) else c

/-- ASCII model of `s.toLowerCase()`. -/
def jsToLower (s : String) : String := ⟨s.data.map jsToLowerChar⟩

/-- ASCII model of `s.toUpperCase()`. -/
def jsToUpper (s : String) : String := ⟨s.data.map jsToUpperChar⟩

/-- The whitespace characters relevant to `String.prototype.trim` for the
ASCII inputs this program handles. -/
def isJsWhitespace (c : Char) : Bool :=
  c = ' ' || c = '\t' || c = '\n' || c = '\r' || c = '\x0b' || c = '\x0c'

/-- `!s || s.trim().length === 0`: the source's emptiness test on a string
argument.  A string trims to empty exactly when every character is
whitespace (the empty string included). -/
def trimIsEmpty (s : String) : Bool := s.data.all isJsWhitespace

/-- Truthiness of an optional string (`if (s)` where `s` may be absent):
present and non-empty. -/
def jsTruthyStr : Option String → Bool
  | none => false
  | some s => !s.isEmpty

/-- `s || d` for an optional string: `d` when absent or empty. -/
def jsOrStr (o : Option String) (d : String) : String :=
  match o with
  | none => d
  | some s => if s.isEmpty then d else s

/-- `x || d` for an optional number (no `NaN`): `d` when absent or zero. -/
def jsOrRat (o : Option Rat) (d : Rat) : Rat :=
  match o with
  | none => d
  | some x => if x = 0 then d else x

/-- `String.prototype.split(sep)` on a character separator, over the
character list.  `[]` maps to `[[]]`, a trailing separator yields a trailing
empty part — exactly JavaScript's behaviour for single-character
separators. -/
def splitOnChar (sep : Char) : List Char → List (List Char)
  | [] => [[]]
  | c :: cs =>
    if c = sep then [] :: splitOnChar sep cs
    else
      match splitOnChar sep cs with
      | g :: gs => (c :: g) :: gs
      | [] => [[c]]

/-- First `n` characters of a string (`s.slice(0, n)`), used to express
"begins with". -/
def strTake (n : Nat) (s : String) : String := ⟨s.data.take n⟩

/-! ## Upstream payload types (src/types.ts) -/

/-- `asn` sub-object of a lookup result: `{number, name, country}`. -/
structure AsnInfo where
  number : Nat
  name : String
  country : String
deriving DecidableEq

/-- One entry of `activities`: `{type, description, timestamp, severity}`. -/
structure Activity where
  type : String
  description : String
  timestamp : String
  severity : String
deriving DecidableEq

/-- The `result` object of a `LookupResponse`. -/
structure LookupResult where
  ip : String
  classification : String
  firstSeen : Option String
  lastSeen : Option String
  abuseContact : Option String
  asn : Option AsnInfo
  blocklists : Option (List String)
  activities : Option (List Activity)
deriving DecidableEq

/-- `LookupResponse`.  The declared TypeScript type has a mandatory `result`,
but the runtime payload of a 2xx answer may lack it; `result` is therefore an
`Option` here so that a wrapper-less payload is representable. -/
structure LookupResponse where
  status : String
  statusCode : Nat
  result : Option LookupResult
deriving DecidableEq

/-- One tag of a `TagsListResponse`. -/
structure TagSummary where
  name : String
  intent : String
  category : String
  description : Option String
deriving DecidableEq

/-- `TagsListResponse`. -/
structure TagsListResponse where
  status : String
  statusCode : Nat
  result : List TagSummary
deriving DecidableEq

/-- One timeline entry of a tag-details result. -/
structure TimelineEntry where
  action : String
  timestamp : String
  description : String
deriving DecidableEq

/-- The `result` object of a `TagDetailsResponse`. -/
structure TagDetailsResult where
  name : String
  intent : String
  category : String
  description : String
  references : List String
  timeline : List TimelineEntry
deriving DecidableEq

/-- `TagDetailsResponse`. -/
structure TagDetailsResponse where
  status : String
  statusCode : Nat
  result : TagDetailsResult
deriving DecidableEq

/-- The `result` object of a `TagIpsResponse`:
`{tag, entries, lastUpdate, total, snapshot}`. -/
structure TagIpsResult where
  tag : String
  entries : List String
  lastUpdate : String
  total : Nat
  snapshot : String
deriving DecidableEq

/-- `TagIpsResponse`. -/
structure TagIpsResponse where
  status : String
  statusCode : Nat
  result : TagIpsResult
deriving DecidableEq

/-! ## Axios failure values (as consumed by `handleApiError`) -/

/-- The structured error body read by `handleApiError`.  The source
interpolates `data.statusCode` and `data.message` into a template literal;
the fields here carry those interpolated string forms. -/
structure ApiErrorBody where
  statusCode : String
  message : String
deriving DecidableEq

/-- `error.response`: the HTTP status plus the (possibly absent or falsy)
response body.  `data = none` models `error.response.data` being
absent/falsy. -/
structure AxiosResponse where
  status : Nat
  data : Option ApiErrorBody
deriving DecidableEq

/-- An `AxiosError` as consumed by `handleApiError`: optional response,
optional `code` string, and the raw `message`. -/
structure AxiosError where
  response : Option AxiosResponse
  code : Option String
  message : String
deriving DecidableEq

namespace GuardianIntelClient

/-! ## `src/guardian-intel-client.ts` (the `GuardianIntelClient` class) -/

/-- `handleApiError` (guardian-intel-client.ts lines 36–51), translated
branch by branch:

```
if (error.response?.data) { return Error(`Guardian Intel API Error (${d.statusCode}): ${d.message}`) }
if (error.code === 'ECONNABORTED') { return Error('Guardian Intel API request timeout') }
if (error.code === 'ENOTFOUND' || error.code === 'ECONNREFUSED') { return Error('Unable to connect to Guardian Intel API') }
return Error(`Guardian Intel API Error: ${error.message}`)
```

The function returns the produced `Error` message. -/
def handleApiError (error : AxiosError) : String :=
  match error.response.bind AxiosResponse.data with
  | some body =>
      "Guardian Intel API Error (" ++ body.statusCode ++ "): " ++ body.message
  | none =>
      if error.code = some "ECONNABORTED" then
        "Guardian Intel API request timeout"
      else if error.code = some "ENOTFOUND" ∨ error.code = some "ECONNREFUSED" then
        "Unable to connect to Guardian Intel API"
      else
        "Guardian Intel API Error: " ++ error.message

/-- Character-class membership for a regex range `[lo-hi]`, by code point. -/
def inCodeRange (lo hi : Nat) (c : Char) : Bool :=
  decide (lo ≤ c.toNat) && decide (c.toNat ≤ hi)

/-- Exact character, by code point. -/
def isCode (n : Nat) (c : Char) : Bool := decide (c.toNat = n)

/-- Regex class `[0-9]` (code points 48–57). -/
def isDigitChar (c : Char) : Bool := inCodeRange 48 57 c

/-- Regex class `[0-9a-fA-F]` (48–57, 97–102, 65–70). -/
def isHexChar (c : Char) : Bool :=
  isDigitChar c || inCodeRange 97 102 c || inCodeRange 65 70 c

/-- Full match of one octet group of the IPv4 regex, the alternation
`25[0-5] | 2[0-4][0-9] | [01]?[0-9][0-9]?`, decomposed by match length
(code points: 48 = '0', 49 = '1', 50 = '2', 52 = '4', 53 = '5').
Length 1 and 2 can only come from `[01]?[0-9][0-9]?`, whose two-character
matches (`[01][0-9]` or `[0-9][0-9]`) jointly cover any two digits. -/
def ipv4OctetMatch : List Char → Bool
  | [a] => isDigitChar a
  | [a, b] => isDigitChar a && isDigitChar b
  | [a, b, c] =>
      (isCode 50 a && isCode 53 b && inCodeRange 48 53 c)
      || (isCode 50 a && inCodeRange 48 52 b && isDigitChar c)
      || ((isCode 48 a || isCode 49 a) && isDigitChar b && isDigitChar c)
  | _ => false

/-- The anchored IPv4 regex
`^(?:(?:25[0-5]|2[0-4][0-9]|[01]?[0-9][0-9]?)\.){3}(?:...)$`.
Octet groups never contain a dot, so a full match decomposes uniquely as a
split on '.' into exactly four octet matches. -/
def ipv4RegexTest (s : String) : Bool :=
  match splitOnChar '.' s.data with
  | [a, b, c, d] => ipv4OctetMatch a && ipv4OctetMatch b && ipv4OctetMatch c && ipv4OctetMatch d
  | _ => false

/-- One group `[0-9a-fA-F]{1,4}` of the IPv6 regex. -/
def ipv6GroupMatch (g : List Char) : Bool :=
  decide (1 ≤ g.length) && decide (g.length ≤ 4) && g.all isHexChar

/-- The anchored IPv6 regex
`^(?:[0-9a-fA-F]{1,4}:){7}[0-9a-fA-F]{1,4}$|^::1$|^::$`: eight
colon-separated hex groups (groups never contain ':', so the split is the
unique decomposition), or the literal `::1`, or the literal `::`. -/
def ipv6RegexTest (s : String) : Bool :=
  (let parts := splitOnChar ':' s.data
   decide (parts.length = 8) && parts.all ipv6GroupMatch)
  || decide (s = "::1") || decide (s = "::")

/-- `isValidIpAddress` (guardian-intel-client.ts lines 53–57):
`ipv4Regex.test(ip) || ipv6Regex.test(ip)`. -/
def isValidIpAddress (ip : String) : Bool :=
  ipv4RegexTest ip || ipv6RegexTest ip

/-- `GuardianIntelConfig`: `{apiKey, baseUrl?}`. -/
structure GuardianIntelConfig where
  apiKey : String
  baseUrl : Option String := none

/-- The state the constructor installs on the axios instance. -/
structure ClientState where
  baseURL : String
  headers : List (String × String)
  timeout : Nat
deriving DecidableEq

/-- The constructor (guardian-intel-client.ts lines 15–34).  Its body
contains no validation and no `throw`: it resolves the base URL
(`config.baseUrl || default`), creates the axios instance with the
`Authorization: Bearer <apiKey>` header, and registers the error
interceptor.  `Except` is the type of a possibly-throwing constructor; this
one always succeeds. -/
def construct (config : GuardianIntelConfig) : Except String ClientState :=
  .ok
    { baseURL := jsOrStr config.baseUrl "https://threat-intel-api.abusix.com/beta"
    , headers :=
        [ ("Authorization", "Bearer " ++ config.apiKey)
        , ("Content-Type", "application/json")
        , ("User-Agent", "@abusix/guardian-intel-mcp-server/1.0.0") ]
    , timeout := 30000 }

/-- `lookupIp` (guardian-intel-client.ts lines 59–70): validate, then issue
the GET and return `response.data` unchanged; a rejected request surfaces
through the response interceptor as `Error(handleApiError e)`.  The network
is the oracle `net` (keyed by the raw ip; percent-encoding of the path is a
transport detail not modelled). -/
def lookupIp (ip : String) (net : String → Except AxiosError LookupResponse) :
    Except JsThrown LookupResponse :=
  if !isValidIpAddress ip then
    .error (.err "Invalid IP address format")
  else
    match net ip with
    | .ok resp => .ok resp
    | .error e => .error (.err (handleApiError e))

/-- `getTags` (guardian-intel-client.ts lines 72–80): no validation; the
query flag is `includeDescriptions ? {includeDescriptions:'true'} : {}`. -/
def getTags (includeDescriptions : Bool)
    (net : Bool → Except AxiosError TagsListResponse) :
    Except JsThrown TagsListResponse :=
  match net includeDescriptions with
  | .ok resp => .ok resp
  | .error e => .error (.err (handleApiError e))

/-- `getTagDetails` (guardian-intel-client.ts lines 82–93). -/
def getTagDetails (tagName : String)
    (net : String → Except AxiosError TagDetailsResponse) :
    Except JsThrown TagDetailsResponse :=
  if trimIsEmpty tagName then
    .error (.err "Tag name is required")
  else
    match net tagName with
    | .ok resp => .ok resp
    | .error e => .error (.err (handleApiError e))

/-- The options bag of `getTagIps`. -/
structure TagIpsOptions where
  offset : Option Rat := none
  limit : Option Rat := none
  snapshot : Option String := none

/-- The outgoing request `getTagIps` builds: path tag plus the query
parameters exactly as placed into `params` (`offset.toString()`,
`limit.toString()`, and `snapshot` only when truthy). -/
structure TagIpsRequest where
  tagName : String
  offset : Rat
  limit : Rat
  snapshot : Option String
deriving DecidableEq

/-- The pre-network stage of `getTagIps` (guardian-intel-client.ts lines
95–130): validation in source order, then the request assembly.  Defaults
`{offset = 0, limit = 1000}` are destructuring defaults.  Note the source
sends `offset`/`limit` through unchanged (`offset.toString()`): no rounding
of any kind appears. -/
def getTagIpsRequest (tagName : String) (options : TagIpsOptions) :
    Except String TagIpsRequest :=
  if trimIsEmpty tagName then
    .error "Tag name is required"
  else
    let offset := options.offset.getD 0
    let limit := options.limit.getD 1000
    if limit > 10000 then
      .error "Limit cannot exceed 10,000"
    else if offset < 0 ∨ limit < 1 then
      .error "Offset must be non-negative and limit must be positive"
    else
      .ok
        { tagName := tagName
        , offset := offset
        , limit := limit
        , snapshot :=
            match options.snapshot with
            | some s => if s.isEmpty then none else some s
            | none => none }

/-- `getTagIps` (guardian-intel-client.ts lines 95–135): validation (raised
directly, before any network call), then the GET via the oracle, whose
rejection surfaces through the interceptor as `Error(handleApiError e)`. -/
def getTagIps (tagName : String) (options : TagIpsOptions)
    (net : TagIpsRequest → Except AxiosError TagIpsResponse) :
    Except JsThrown TagIpsResponse :=
  match getTagIpsRequest tagName options with
  | .error m => .error (.err m)
  | .ok req =>
      match net req with
      | .ok resp => .ok resp
      | .error e => .error (.err (handleApiError e))

end GuardianIntelClient

/-! ## `src/tools.ts` (the `GuardianIntelTools` class) -/

/-- The client as the dispatcher sees it: four injected async methods
(`constructor(private client: GuardianIntelClient)`).  Each may reject with
an arbitrary JavaScript value, which is what the dispatcher's `catch`
receives. -/
structure ClientIface where
  lookupIp : String → Except JsThrown LookupResponse
  getTags : Bool → Except JsThrown TagsListResponse
  getTagDetails : String → Except JsThrown TagDetailsResponse
  getTagIps : String → GuardianIntelClient.TagIpsOptions → Except JsThrown TagIpsResponse

/-- The loosely-typed argument bag handed to `executeTool`, restricted to
the fields the four handlers read.  An absent `ip`/`tagName` behaves like an
invalid/empty one downstream, so those are defaulted to `""`. -/
structure ToolArgs where
  ip : String := ""
  includeDescriptions : Option Bool := none
  tagName : String := ""
  offset : Option Rat := none
  limit : Option Rat := none
  snapshot : Option String := none

/-- Output of the lookup handler (tools.ts lines 117–136). -/
structure LookupOutput where
  ip : String
  classification : String
  threat_level : String
  first_seen : Option String
  last_seen : Option String
  abuse_contact : Option String
  asn : Option AsnInfo
  blocklists : List String
  malicious_activities : List Activity
  summary : String
deriving DecidableEq

/-- One entry of the tags-list output. -/
structure TagListEntry where
  name : String
  intent : String
  category : String
  description : Option String
deriving DecidableEq

/-- Output of the tags-list handler (tools.ts lines 138–152). -/
structure TagsListOutput where
  total_tags : Nat
  tags : List TagListEntry
  categories : List (String × Nat)
  intents : List (String × Nat)
deriving DecidableEq

/-- The `tag` sub-object of the tag-details output. -/
structure TagCore where
  name : String
  intent : String
  category : String
  description : String
deriving DecidableEq

/-- Output of the tag-details handler (tools.ts lines 154–172). -/
structure TagDetailsOutput where
  tag : TagCore
  references : List String
  timeline : List TimelineEntry
  threat_context : String
deriving DecidableEq

/-- The `pagination` sub-object of the tag-ips output. -/
structure Pagination where
  total : Nat
  returned : Nat
  offset : Rat
  limit : Rat
  has_more : Bool
deriving DecidableEq

/-- Output of the tag-ips handler (tools.ts lines 174–195). -/
structure TagIpsOutput where
  tag : String
  ip_addresses : List String
  pagination : Pagination
  last_update : String
  snapshot : String
  summary : String
deriving DecidableEq

/-- The union of the four handler outputs (`executeTool` returns `any`). -/
inductive ToolOutput where
  | lookup (o : LookupOutput)
  | tagsList (o : TagsListOutput)
  | tagDetails (o : TagDetailsOutput)
  | tagIps (o : TagIpsOutput)
deriving DecidableEq

namespace GuardianIntelTools

/-- `getAggregatedThreatLevel` (tools.ts lines 197–208):
`switch (classification.toLowerCase())`. -/
def getAggregatedThreatLevel (classification : String) : String :=
  if jsToLower classification = "malicious" then "HIGH"
  else if jsToLower classification = "suspicious" then "MEDIUM"
  else if jsToLower classification = "unknown" then "LOW"
  else "UNKNOWN"

/-- `generateThreatSummary` (tools.ts lines 210–231), with `summary +=`
modelled as successive lets. -/
def generateThreatSummary (result : LookupResult) : String :=
  let activities := result.activities.getD []
  let blocklists := result.blocklists.getD []
  let s1 := "IP is classified as " ++ jsToUpper result.classification
  let s2 :=
    if blocklists.length > 0 then
      s1 ++ (" and appears on " ++ toString blocklists.length ++ " blocklist(s)")
    else s1
  let s3 :=
    if activities.length > 0 then
      s2 ++ (". Observed activities: " ++ String.intercalate ", " (activities.map Activity.type))
    else s2
  if jsTruthyStr result.firstSeen then
    s3 ++ (". First seen: " ++ result.firstSeen.getD "")
  else s3

/-- `stats[key] = (stats[key] || 0) + 1` on an insertion-ordered object,
modelled as an association list. -/
def bumpKey (key : String) : List (String × Nat) → List (String × Nat)
  | [] => [(key, 1)]
  | (k, n) :: rest =>
      if k = key then (k, n + 1) :: rest else (k, n) :: bumpKey key rest

/-- `getCategoryStats` (tools.ts lines 233–239). -/
def getCategoryStats (tags : List TagSummary) : List (String × Nat) :=
  tags.foldl (fun acc t => bumpKey t.category acc) []

/-- `getIntentStats` (tools.ts lines 241–247). -/
def getIntentStats (tags : List TagSummary) : List (String × Nat) :=
  tags.foldl (fun acc t => bumpKey t.intent acc) []

/-- `generateTagContext` (tools.ts lines 249–259). -/
def generateTagContext (tagDetails : TagDetailsResult) : String :=
  let context := "This tag represents " ++ tagDetails.intent
    ++ " activity in the " ++ tagDetails.category ++ " category"
  if !tagDetails.description.isEmpty then
    context ++ (". " ++ tagDetails.description)
  else context

/-- Private `lookupIp` handler (tools.ts lines 117–136).  When the 2xx
payload has no `result` object, `response.result.ip` raises a `TypeError`
(an `Error` instance; its exact Node-generated text is not load-bearing and
is abbreviated here). -/
def lookupHandler (client : ClientIface) (args : ToolArgs) :
    Except JsThrown ToolOutput :=
  match client.lookupIp args.ip with
  | .error e => .error e
  | .ok resp =>
      match resp.result with
      | none => .error (.err "TypeError: Cannot read properties of undefined")
      | some r =>
          .ok (.lookup
            { ip := r.ip
            , classification := r.classification
            , threat_level := getAggregatedThreatLevel r.classification
            , first_seen := r.firstSeen
            , last_seen := r.lastSeen
            , abuse_contact := r.abuseContact
            , asn := r.asn
            , blocklists := r.blocklists.getD []
            , malicious_activities := r.activities.getD []
            , summary := generateThreatSummary r })

/-- Private `getTagsList` handler (tools.ts lines 138–152);
`tag.description || null`. -/
def tagsListHandler (client : ClientIface) (args : ToolArgs) :
    Except JsThrown ToolOutput :=
  match client.getTags (args.includeDescriptions.getD false) with
  | .error e => .error e
  | .ok resp =>
      .ok (.tagsList
        { total_tags := resp.result.length
        , tags := resp.result.map (fun t =>
            { name := t.name
            , intent := t.intent
            , category := t.category
            , description :=
                match t.description with
                | some d => if d.isEmpty then none else some d
                | none => none })
        , categories := getCategoryStats resp.result
        , intents := getIntentStats resp.result })

/-- Private `getTagDetails` handler (tools.ts lines 154–172). -/
def tagDetailsHandler (client : ClientIface) (args : ToolArgs) :
    Except JsThrown ToolOutput :=
  match client.getTagDetails args.tagName with
  | .error e => .error e
  | .ok resp =>
      .ok (.tagDetails
        { tag :=
            { name := resp.result.name
            , intent := resp.result.intent
            , category := resp.result.category
            , description := resp.result.description }
        , references := resp.result.references
        , timeline := resp.result.timeline.map (fun e =>
            { action := e.action, timestamp := e.timestamp, description := e.description })
        , threat_context := generateTagContext resp.result })

/-- Private `getTagIps` handler (tools.ts lines 174–195). -/
def tagIpsHandler (client : ClientIface) (args : ToolArgs) :
    Except JsThrown ToolOutput :=
  match client.getTagIps args.tagName
      { offset := args.offset, limit := args.limit, snapshot := args.snapshot } with
  | .error e => .error e
  | .ok resp =>
      .ok (.tagIps
        { tag := resp.result.tag
        , ip_addresses := resp.result.entries
        , pagination :=
            { total := resp.result.total
            , returned := resp.result.entries.length
            , offset := jsOrRat args.offset 0
            , limit := jsOrRat args.limit 1000
            , has_more :=
                decide (jsOrRat args.offset 0 + (resp.result.entries.length : Rat)
                  < (resp.result.total : Rat)) }
        , last_update := resp.result.lastUpdate
        , snapshot := resp.result.snapshot
        , summary := "Found " ++ toString resp.result.entries.length
            ++ " IP addresses associated with tag \x27" ++ resp.result.tag ++ "\x27" })

/-- `executeTool` (tools.ts lines 94–115): the `switch` on the tool name
inside a `try`, whose `catch` re-wraps every thrown value as
`Tool execution failed: <error instanceof Error ? error.message : 'Unknown error'>`. -/
def executeTool (client : ClientIface) (name : String) (args : ToolArgs) :
    Except String ToolOutput :=
  let attempt : Except JsThrown ToolOutput :=
    if name = "guardian_intel_lookup" then lookupHandler client args
    else if name = "guardian_intel_tags_list" then tagsListHandler client args
    else if name = "guardian_intel_tag_details" then tagDetailsHandler client args
    else if name = "guardian_intel_tag_ips" then tagIpsHandler client args
    else .error (.err ("Unknown tool: " ++ name))
  match attempt with
  | .ok v => .ok v
  | .error e => .error ("Tool execution failed: " ++ jsErrorText e)

end GuardianIntelTools

/-! ## Specification-side definitions

These definitions follow the wording of the (amended) spec sentences rather
than the source text; the refinement theorems below compare them with the
source-derived definitions. -/

/-- Numeric value of a digit string (most significant first). -/
def digitsVal (t : List Char) : Nat :=
  t.foldl (fun n c => n * 10 + (c.toNat - 48)) 0

/-- Spec-side octet: a string of one to three decimal digits whose numeric
value is at most 255 (leading zeros allowed). -/
def spec_octetOk (t : List Char) : Bool :=
  decide (1 ≤ t.length) && decide (t.length ≤ 3)
    && t.all GuardianIntelClient.isDigitChar && decide (digitsVal t ≤ 255)

/-- Spec-side IP validity: a dotted quad of such octets, or a full
eight-group IPv6 address (groups of one to four hex digits), or one of the
literals `::1` and `::`. -/
def spec_isValidIp (s : String) : Bool :=
  (match splitOnChar '.' s.data with
   | [a, b, c, d] => spec_octetOk a && spec_octetOk b && spec_octetOk c && spec_octetOk d
   | _ => false)
  || ((let parts := splitOnChar ':' s.data
       decide (parts.length = 8) && parts.all GuardianIntelClient.ipv6GroupMatch)
      || decide (s = "::1") || decide (s = "::"))

/-- The octet group of the source regex accepts exactly the spec-side
octets: one to three digits valued at most 255, leading zeros included. -/
theorem octet_match_eq_spec (t : List Char) :
    GuardianIntelClient.ipv4OctetMatch t = spec_octetOk t := by
  have hb : ∀ a b : Bool, (a = true ↔ b = true) → a = b := by
    intro a b h
    cases a <;> cases b <;> simp_all
  match t with
  | [] => rfl
  | [a] =>
    apply hb
    simp only [GuardianIntelClient.ipv4OctetMatch, spec_octetOk,
      GuardianIntelClient.isDigitChar, GuardianIntelClient.inCodeRange, digitsVal,
      List.foldl, List.all_cons, List.all_nil, List.length_cons, List.length_nil,
      Bool.and_eq_true, Bool.and_true, decide_eq_true_eq]
    omega
  | [a, b] =>
    apply hb
    simp only [GuardianIntelClient.ipv4OctetMatch, spec_octetOk,
      GuardianIntelClient.isDigitChar, GuardianIntelClient.inCodeRange, digitsVal,
      List.foldl, List.all_cons, List.all_nil, List.length_cons, List.length_nil,
      Bool.and_eq_true, Bool.and_true, decide_eq_true_eq]
    omega
  | [a, b, c] =>
    apply hb
    simp only [GuardianIntelClient.ipv4OctetMatch, spec_octetOk,
      GuardianIntelClient.isDigitChar, GuardianIntelClient.isCode,
      GuardianIntelClient.inCodeRange, digitsVal,
      List.foldl, List.all_cons, List.all_nil, List.length_cons, List.length_nil,
      Bool.and_eq_true, Bool.or_eq_true, Bool.and_true, decide_eq_true_eq]
    omega
  | _ :: _ :: _ :: _ :: _ =>
    apply hb
    simp only [GuardianIntelClient.ipv4OctetMatch, spec_octetOk,
      List.length_cons, Bool.and_eq_true, decide_eq_true_eq, Bool.false_eq_true,
      false_iff]
    rintro ⟨⟨⟨-, h2⟩, -⟩, -⟩
    omega

/-- The source validator agrees with the spec-side characterisation on every
string. -/
theorem isValidIp_eq_spec (s : String) :
    GuardianIntelClient.isValidIpAddress s = spec_isValidIp s := by
  have h4 : GuardianIntelClient.ipv4RegexTest s
      = (match splitOnChar '.' s.data with
         | [a, b, c, d] => spec_octetOk a && spec_octetOk b && spec_octetOk c && spec_octetOk d
         | _ => false) := by
    unfold GuardianIntelClient.ipv4RegexTest
    generalize splitOnChar '.' s.data = l
    match l with
    | [] => rfl
    | [_] => rfl
    | [_, _] => rfl
    | [_, _, _] => rfl
    | [a, b, c, d] => simp only [octet_match_eq_spec]
    | _ :: _ :: _ :: _ :: _ :: _ => rfl
  unfold GuardianIntelClient.isValidIpAddress spec_isValidIp GuardianIntelClient.ipv6RegexTest
  rw [h4]

example : GuardianIntelClient.isValidIpAddress "1.2.3.4" = true := by decide
example : GuardianIntelClient.isValidIpAddress "255.255.255.255" = true := by decide
example : GuardianIntelClient.isValidIpAddress "192.168.01.1" = true := by decide
example : GuardianIntelClient.isValidIpAddress "192.168.001.001" = true := by decide
example : GuardianIntelClient.isValidIpAddress "192.168.1.256" = false := by decide
example : GuardianIntelClient.isValidIpAddress "example.com" = false := by decide
example : GuardianIntelClient.isValidIpAddress "" = false := by decide
example : GuardianIntelClient.isValidIpAddress "   " = false := by decide
example : GuardianIntelClient.isValidIpAddress "192.168.1.0/24" = false := by decide
example : GuardianIntelClient.isValidIpAddress "2001:0db8:85a3:0000:0000:8a2e:0370:7334" = true := by decide
example : GuardianIntelClient.isValidIpAddress "2001:db8::1" = false := by decide
example : GuardianIntelClient.isValidIpAddress "::" = true := by decide
example : GuardianIntelClient.isValidIpAddress "::1" = true := by decide

/-- Spec-side summary rule for the lookup output, as a concatenation of one
base segment and three optional segments:
`"IP is classified as {CLASSIFICATION upper-cased}"`, then
`" and appears on {k} blocklist(s)"` when blocklists are present, then
`". Observed activities: {types joined by ', '}"` when activities are
present, then `". First seen: {first_seen}"` when `firstSeen` is present. -/
def spec_lookupSummary (r : LookupResult) : String :=
  ("IP is classified as " ++ jsToUpper r.classification)
    ++ (if (r.blocklists.getD []).length > 0 then
          " and appears on " ++ toString (r.blocklists.getD []).length ++ " blocklist(s)"
        else "")
    ++ (if (r.activities.getD []).length > 0 then
          ". Observed activities: "
            ++ String.intercalate ", " ((r.activities.getD []).map Activity.type)
        else "")
    ++ (if jsTruthyStr r.firstSeen then ". First seen: " ++ r.firstSeen.getD "" else "")

/-- The source's `generateThreatSummary` produces exactly the spec-side
summary. -/
theorem generateThreatSummary_eq_spec (r : LookupResult) :
    GuardianIntelTools.generateThreatSummary r = spec_lookupSummary r := by
  unfold GuardianIntelTools.generateThreatSummary spec_lookupSummary
  by_cases h1 : (r.blocklists.getD []).length > 0 <;>
    by_cases h2 : (r.activities.getD []).length > 0 <;>
      by_cases h3 : jsTruthyStr r.firstSeen = true <;>
        simp [h1, h2, h3, String.append_assoc]

/-! ## Test fixtures shared by the concrete instances below -/

/-- A minimal lookup result: classification `malicious`, everything else
absent. -/
def sampleLookupResult : LookupResult :=
  { ip := "1.2.3.4", classification := "malicious", firstSeen := none
  , lastSeen := none, abuseContact := none, asn := none
  , blocklists := none, activities := none }

/-- A well-formed 2xx lookup payload wrapping `sampleLookupResult`. -/
def sampleLookupResponse : LookupResponse :=
  { status := "success", statusCode := 200, result := some sampleLookupResult }

/-- A 2xx lookup payload missing the `result` wrapper field. -/
def wrapperlessLookupResponse : LookupResponse :=
  { status := "success", statusCode := 200, result := none }

/-- A rejected promise for the client methods a test does not exercise. -/
def unusedCall {α : Type} : Except JsThrown α := .error (.err "unused")

/-- A client whose `lookupIp` returns the given outcome and whose other
methods are unused. -/
def lookupOnlyIface (x : Except JsThrown LookupResponse) : ClientIface :=
  { lookupIp := fun _ => x
  , getTags := fun _ => unusedCall
  , getTagDetails := fun _ => unusedCall
  , getTagIps := fun _ _ => unusedCall }

/-- A client whose `getTagIps` returns the given outcome and whose other
methods are unused. -/
def tagIpsOnlyIface (x : Except JsThrown TagIpsResponse) : ClientIface :=
  { lookupIp := fun _ => unusedCall
  , getTags := fun _ => unusedCall
  , getTagDetails := fun _ => unusedCall
  , getTagIps := fun _ _ => x }

/-- A client whose `getTags` returns the given outcome and whose other
methods are unused. -/
def tagsListOnlyIface (x : Except JsThrown TagsListResponse) : ClientIface :=
  { lookupIp := fun _ => unusedCall
  , getTags := fun _ => x
  , getTagDetails := fun _ => unusedCall
  , getTagIps := fun _ _ => unusedCall }

/-- A client whose `getTagDetails` returns the given outcome and whose other
methods are unused. -/
def tagDetailsOnlyIface (x : Except JsThrown TagDetailsResponse) : ClientIface :=
  { lookupIp := fun _ => unusedCall
  , getTags := fun _ => unusedCall
  , getTagDetails := fun _ => x
  , getTagIps := fun _ _ => unusedCall }

/-- A tag-ips payload: two entries out of a total of 1000. -/
def tagIpsResponseA : TagIpsResponse :=
  { status := "success", statusCode := 200
  , result :=
    { tag := "credentials:brute-force", entries := ["1.2.3.4", "5.6.7.8"]
    , lastUpdate := "2024-01-01T00:00:00Z", total := 1000, snapshot := "snap-1" } }

/-- The same payload with a total of 2 (everything already returned). -/
def tagIpsResponseB : TagIpsResponse :=
  { status := "success", statusCode := 200
  , result :=
    { tag := "credentials:brute-force", entries := ["1.2.3.4", "5.6.7.8"]
    , lastUpdate := "2024-01-01T00:00:00Z", total := 2, snapshot := "snap-1" } }

/-- A bodyless 401 failure: a response was received (status 401) but
`response.data` is absent, no error code, axios's raw message. -/
def bodyless401 : AxiosError :=
  { response := some { status := 401, data := none }
  , code := none
  , message := "Request failed with status code 401" }

/-! ## Claims -/

/-- C1 (amended): `handleApiError` normalizes a failed attempt by this
priority: (1) if a truthy structured body is present, `Guardian Intel API
Error (<code>): <message>` built from the body's `statusCode` and `message`
fields; otherwise (2) the error code is consulted — even when a (bodyless)
response was received: `ECONNABORTED` yields exactly "Guardian Intel API
request timeout"; (3) `ENOTFOUND`/`ECONNREFUSED` yield exactly "Unable to
connect to Guardian Intel API" regardless of the underlying error text; and
(4) in every other case the message is `Guardian Intel API Error: <raw
failure message>`.  There is no mapping of known HTTP statuses to fixed
messages. -/
theorem c1_error_normalization_priority (e : AxiosError) :
    (∀ body : ApiErrorBody, e.response.bind AxiosResponse.data = some body →
      GuardianIntelClient.handleApiError e
        = "Guardian Intel API Error (" ++ body.statusCode ++ "): " ++ body.message)
    ∧ (e.response.bind AxiosResponse.data = none → e.code = some "ECONNABORTED" →
      GuardianIntelClient.handleApiError e = "Guardian Intel API request timeout")
    ∧ (e.response.bind AxiosResponse.data = none → e.code ≠ some "ECONNABORTED" →
      (e.code = some "ENOTFOUND" ∨ e.code = some "ECONNREFUSED") →
      GuardianIntelClient.handleApiError e = "Unable to connect to Guardian Intel API")
    ∧ (e.response.bind AxiosResponse.data = none → e.code ≠ some "ECONNABORTED" →
      e.code ≠ some "ENOTFOUND" → e.code ≠ some "ECONNREFUSED" →
      GuardianIntelClient.handleApiError e
        = "Guardian Intel API Error: " ++ e.message) := by
  refine ⟨?_, ?_, ?_, ?_⟩
  · intro body h
    simp [GuardianIntelClient.handleApiError, h]
  · intro h hc
    simp [GuardianIntelClient.handleApiError, h, hc]
  · intro h hc hor
    simp only [GuardianIntelClient.handleApiError, h]
    rw [if_neg hc, if_pos hor]
  · intro h hc h1 h2
    simp only [GuardianIntelClient.handleApiError, h]
    rw [if_neg hc, if_neg (by rintro (x | x) <;> [exact h1 x; exact h2 x])]

/-- Witness for C1 at concrete failures: a structured-body 400, a timeout,
a refused connection, and a bare failure. -/
theorem c1_error_normalization_priority_witness :
    GuardianIntelClient.handleApiError
        { response := some { status := 400
                           , data := some { statusCode := "400", message := "Invalid IP address format" } }
        , code := none, message := "Request failed with status code 400" }
      = "Guardian Intel API Error (400): Invalid IP address format"
    ∧ GuardianIntelClient.handleApiError
        { response := none, code := some "ECONNABORTED", message := "timeout of 30000ms exceeded" }
      = "Guardian Intel API request timeout"
    ∧ GuardianIntelClient.handleApiError
        { response := none, code := some "ECONNREFUSED", message := "connect ECONNREFUSED 127.0.0.1:443" }
      = "Unable to connect to Guardian Intel API"
    ∧ GuardianIntelClient.handleApiError
        { response := none, code := none, message := "Network error" }
      = "Guardian Intel API Error: Network error" := by
  refine ⟨?_, ?_, ?_, ?_⟩
  · exact (c1_error_normalization_priority
        { response := some { status := 400
                           , data := some { statusCode := "400", message := "Invalid IP address format" } }
        , code := none, message := "Request failed with status code 400" }).1
      { statusCode := "400", message := "Invalid IP address format" } rfl
  · exact (c1_error_normalization_priority
        { response := none, code := some "ECONNABORTED", message := "timeout of 30000ms exceeded" }).2.1
      rfl rfl
  · exact (c1_error_normalization_priority
        { response := none, code := some "ECONNREFUSED", message := "connect ECONNREFUSED 127.0.0.1:443" }).2.2.1
      rfl (by decide) (Or.inr rfl)
  · exact (c1_error_normalization_priority
        { response := none, code := none, message := "Network error" }).2.2.2
      rfl (by decide) (by decide) (by decide)

/-- Counterexample for C1 as stated: a bodyless failure with a known HTTP
status (401) is NOT mapped to a fixed `(401): ...` message; it falls through
to the raw-message case. -/
theorem c1_counterexample :
    GuardianIntelClient.handleApiError bodyless401
      = "Guardian Intel API Error: Request failed with status code 401"
    ∧ strTake 30 (GuardianIntelClient.handleApiError bodyless401)
      ≠ "Guardian Intel API Error (401)" := by
  exact ⟨rfl, by decide⟩

/-- C2 (amended): the validator accepts exactly the dotted quads whose
octets are one-to-three-digit strings valued at most 255 — leading-zero
octets such as `01` are accepted — together with full eight-group IPv6
addresses and the literals `::1` and `::`; and for every string it rejects,
`lookupIp` fails with "Invalid IP address format" uniformly in the network
oracle (i.e. before any network call). -/
theorem c2_ip_validation (s : String) :
    GuardianIntelClient.isValidIpAddress s = spec_isValidIp s
    ∧ (∀ net, GuardianIntelClient.isValidIpAddress s = false →
        GuardianIntelClient.lookupIp s net
          = .error (.err "Invalid IP address format")) := by
  refine ⟨isValidIp_eq_spec s, ?_⟩
  intro net h
  simp [GuardianIntelClient.lookupIp, h]

/-- Witness for C2: `example.com` is rejected by the validator, and
`lookupIp` on it fails without consulting the network. -/
theorem c2_ip_validation_witness :
    GuardianIntelClient.lookupIp "example.com" (fun _ => .ok sampleLookupResponse)
      = .error (.err "Invalid IP address format") := by
  exact (c2_ip_validation "example.com").2 _ (by decide)

/-- Counterexample for C2 as stated: the octet regex `[01]?[0-9][0-9]?`
accepts leading zeros, so `192.168.01.1` is accepted and `lookupIp` on it
does reach the network. -/
theorem c2_counterexample :
    GuardianIntelClient.isValidIpAddress "192.168.01.1" = true
    ∧ GuardianIntelClient.lookupIp "192.168.01.1" (fun _ => .ok sampleLookupResponse)
      = .ok sampleLookupResponse := by
  exact ⟨by decide, rfl⟩

/-- A stand-in upstream for `getTagIps` calls. -/
def netIps : GuardianIntelClient.TagIpsRequest → Except AxiosError TagIpsResponse :=
  fun _ => .ok tagIpsResponseA

/-- C3 (confirmed): `getTagIps` validates before any network call (the
outcome is uniform in the oracle), in source order: empty/whitespace tag
name first, then `limit > 10000`, then `offset < 0 ∨ limit < 1`; and a
limit of exactly 10000 (with non-negative offset) passes validation. -/
theorem c3_getTagIps_validation_order :
    (∀ tagName opts net, trimIsEmpty tagName = true →
      GuardianIntelClient.getTagIps tagName opts net
        = .error (.err "Tag name is required"))
    ∧ (∀ tagName opts net, trimIsEmpty tagName = false →
      (10000 : Rat) < opts.limit.getD 1000 →
      GuardianIntelClient.getTagIps tagName opts net
        = .error (.err "Limit cannot exceed 10,000"))
    ∧ (∀ tagName opts net, trimIsEmpty tagName = false →
      opts.limit.getD 1000 ≤ (10000 : Rat) →
      (opts.offset.getD 0 < (0 : Rat) ∨ opts.limit.getD 1000 < (1 : Rat)) →
      GuardianIntelClient.getTagIps tagName opts net
        = .error (.err "Offset must be non-negative and limit must be positive"))
    ∧ (∀ tagName opts, trimIsEmpty tagName = false →
      opts.limit.getD 1000 = (10000 : Rat) → (0 : Rat) ≤ opts.offset.getD 0 →
      (GuardianIntelClient.getTagIpsRequest tagName opts).isOk = true) := by
  refine ⟨?_, ?_, ?_, ?_⟩
  · intro tagName opts net h
    simp [GuardianIntelClient.getTagIps, GuardianIntelClient.getTagIpsRequest, h]
  · intro tagName opts net h hl
    simp [GuardianIntelClient.getTagIps, GuardianIntelClient.getTagIpsRequest, h, hl]
  · intro tagName opts net h hl hbad
    simp only [GuardianIntelClient.getTagIps, GuardianIntelClient.getTagIpsRequest, h,
      Bool.false_eq_true, if_false]
    rw [if_neg (not_lt.mpr hl), if_pos hbad]
  · intro tagName opts h hl ho
    simp only [GuardianIntelClient.getTagIpsRequest, h, Bool.false_eq_true, if_false]
    have h1 : ¬ opts.limit.getD 1000 > (10000 : Rat) := by
      rw [hl]
      exact lt_irrefl _
    have h2 : ¬ (opts.offset.getD 0 < (0 : Rat) ∨ opts.limit.getD 1000 < (1 : Rat)) := by
      rw [hl]
      push_neg
      exact ⟨ho, by norm_num⟩
    rw [if_neg h1, if_neg h2]
    rfl

/-- Witness for C3 at the concrete parameters named by the claim:
limit 10001, offset −1, limit 0 each fail with the stated message, and
limit 10000 passes validation. -/
theorem c3_getTagIps_validation_order_witness :
    GuardianIntelClient.getTagIps "   " {} netIps
      = .error (.err "Tag name is required")
    ∧ GuardianIntelClient.getTagIps "test-tag" { limit := some 10001 } netIps
      = .error (.err "Limit cannot exceed 10,000")
    ∧ GuardianIntelClient.getTagIps "test-tag" { offset := some (-1) } netIps
      = .error (.err "Offset must be non-negative and limit must be positive")
    ∧ GuardianIntelClient.getTagIps "test-tag" { limit := some 0 } netIps
      = .error (.err "Offset must be non-negative and limit must be positive")
    ∧ (GuardianIntelClient.getTagIpsRequest "test-tag" { limit := some 10000 }).isOk = true := by
  refine ⟨?_, ?_, ?_, ?_, ?_⟩
  · exact c3_getTagIps_validation_order.1 _ _ _ (by decide)
  · exact c3_getTagIps_validation_order.2.1 _ _ _ (by decide) (by norm_num)
  · exact c3_getTagIps_validation_order.2.2.1 _ _ _ (by decide) (by norm_num) (Or.inl (by norm_num))
  · exact c3_getTagIps_validation_order.2.2.1 _ _ _ (by decide) (by norm_num) (Or.inr (by norm_num))
  · exact c3_getTagIps_validation_order.2.2.2 _ _ (by decide) (by norm_num) (by norm_num)

/-- C4 (amended): every failure thrown from a dispatch handler — whichever
of the four handlers raised it — is re-wrapped with the uniform prefix, the
surfaced message being `Tool execution failed: <m>` where `m` is the thrown
`Error`'s message — but for a non-`Error` thrown value `m` is the fixed
text `Unknown error`, not the value's string form; dispatching an
unrecognized name fails with `Tool execution failed: Unknown tool:
<name>`. -/
theorem c4_dispatch_error_wrapping :
    (∀ (client : ClientIface) (args : ToolArgs) (name : String),
      name ≠ "guardian_intel_lookup" → name ≠ "guardian_intel_tags_list" →
      name ≠ "guardian_intel_tag_details" → name ≠ "guardian_intel_tag_ips" →
      GuardianIntelTools.executeTool client name args
        = .error ("Tool execution failed: " ++ ("Unknown tool: " ++ name)))
    ∧ (∀ (client : ClientIface) (args : ToolArgs) (e : JsThrown),
      client.lookupIp args.ip = .error e →
      GuardianIntelTools.executeTool client "guardian_intel_lookup" args
        = .error ("Tool execution failed: " ++ jsErrorText e))
    ∧ (∀ (client : ClientIface) (args : ToolArgs) (e : JsThrown),
      GuardianIntelTools.lookupHandler client args = .error e →
      GuardianIntelTools.executeTool client "guardian_intel_lookup" args
        = .error ("Tool execution failed: " ++ jsErrorText e))
    ∧ (∀ (client : ClientIface) (args : ToolArgs) (e : JsThrown),
      GuardianIntelTools.tagsListHandler client args = .error e →
      GuardianIntelTools.executeTool client "guardian_intel_tags_list" args
        = .error ("Tool execution failed: " ++ jsErrorText e))
    ∧ (∀ (client : ClientIface) (args : ToolArgs) (e : JsThrown),
      GuardianIntelTools.tagDetailsHandler client args = .error e →
      GuardianIntelTools.executeTool client "guardian_intel_tag_details" args
        = .error ("Tool execution failed: " ++ jsErrorText e))
    ∧ (∀ (client : ClientIface) (args : ToolArgs) (e : JsThrown),
      GuardianIntelTools.tagIpsHandler client args = .error e →
      GuardianIntelTools.executeTool client "guardian_intel_tag_ips" args
        = .error ("Tool execution failed: " ++ jsErrorText e))
    ∧ (∀ m : String, jsErrorText (.err m) = m)
    ∧ (∀ s : String, jsErrorText (.nonError s) = "Unknown error") := by
  refine ⟨?_, ?_, ?_, ?_, ?_, ?_, fun _ => rfl, fun _ => rfl⟩
  · intro client args name h1 h2 h3 h4
    simp [GuardianIntelTools.executeTool, h1, h2, h3, h4, jsErrorText]
  · intro client args e h
    simp [GuardianIntelTools.executeTool, GuardianIntelTools.lookupHandler, h]
  · intro client args e h
    simp [GuardianIntelTools.executeTool, h]
  · intro client args e h
    simp [GuardianIntelTools.executeTool, h]
  · intro client args e h
    simp [GuardianIntelTools.executeTool, h]
  · intro client args e h
    simp [GuardianIntelTools.executeTool, h]

/-- Witness for C4: the unknown-tool dispatch surfaces the exact message,
and failures thrown from each of the four handlers (a client rejection in
lookup, a tags-list rejection, a tag-details validation error, and a
tag-ips limit validation error) all surface their message under the
prefix. -/
theorem c4_dispatch_error_wrapping_witness :
    GuardianIntelTools.executeTool (lookupOnlyIface unusedCall) "unknown_tool" {}
      = .error "Tool execution failed: Unknown tool: unknown_tool"
    ∧ GuardianIntelTools.executeTool
        (lookupOnlyIface (.error (.err "Invalid IP address format")))
        "guardian_intel_lookup" { ip := "nope" }
      = .error "Tool execution failed: Invalid IP address format"
    ∧ GuardianIntelTools.executeTool
        (tagsListOnlyIface (.error (.err "Guardian Intel API request timeout")))
        "guardian_intel_tags_list" {}
      = .error "Tool execution failed: Guardian Intel API request timeout"
    ∧ GuardianIntelTools.executeTool
        (tagDetailsOnlyIface (.error (.err "Tag name is required")))
        "guardian_intel_tag_details" { tagName := "  " }
      = .error "Tool execution failed: Tag name is required"
    ∧ GuardianIntelTools.executeTool
        (tagIpsOnlyIface (.error (.err "Limit cannot exceed 10,000")))
        "guardian_intel_tag_ips" { tagName := "test-tag", limit := some 10001 }
      = .error "Tool execution failed: Limit cannot exceed 10,000" := by
  refine ⟨?_, ?_, ?_, ?_, ?_⟩
  · exact c4_dispatch_error_wrapping.1 (lookupOnlyIface unusedCall) {} "unknown_tool"
      (by decide) (by decide) (by decide) (by decide)
  · exact c4_dispatch_error_wrapping.2.1
      (lookupOnlyIface (.error (.err "Invalid IP address format"))) { ip := "nope" }
      (.err "Invalid IP address format") rfl
  · exact c4_dispatch_error_wrapping.2.2.2.1
      (tagsListOnlyIface (.error (.err "Guardian Intel API request timeout"))) {}
      (.err "Guardian Intel API request timeout") rfl
  · exact c4_dispatch_error_wrapping.2.2.2.2.1
      (tagDetailsOnlyIface (.error (.err "Tag name is required"))) { tagName := "  " }
      (.err "Tag name is required") rfl
  · exact c4_dispatch_error_wrapping.2.2.2.2.2.1
      (tagIpsOnlyIface (.error (.err "Limit cannot exceed 10,000")))
      { tagName := "test-tag", limit := some 10001 }
      (.err "Limit cannot exceed 10,000") rfl

/-- Counterexample for C4 as stated: a non-`Error` thrown value (string form
`boom`) does not surface its string form — the wrapped message is the fixed
`Tool execution failed: Unknown error`. -/
theorem c4_counterexample :
    GuardianIntelTools.executeTool (lookupOnlyIface (.error (.nonError "boom")))
        "guardian_intel_lookup" { ip := "1.2.3.4" }
      = .error "Tool execution failed: Unknown error"
    ∧ "Tool execution failed: Unknown error" ≠ "Tool execution failed: boom" := by
  exact ⟨rfl, by decide⟩

/-- C5 (amended): construction never fails — any `apiKey`, the empty and the
whitespace-only string included, is accepted; the key is embedded verbatim
into the `Authorization: Bearer <apiKey>` header and the base URL defaults
when absent or empty.  No non-emptiness invariant is established. -/
theorem c5_construct_never_fails (config : GuardianIntelClient.GuardianIntelConfig) :
    GuardianIntelClient.construct config
      = .ok { baseURL := jsOrStr config.baseUrl "https://threat-intel-api.abusix.com/beta"
            , headers :=
                [ ("Authorization", "Bearer " ++ config.apiKey)
                , ("Content-Type", "application/json")
                , ("User-Agent", "@abusix/guardian-intel-mcp-server/1.0.0") ]
            , timeout := 30000 } := rfl

/-- Counterexample for C5 as stated: construction with the empty `apiKey`
succeeds (and with a whitespace-only one likewise), so there is no
"apiKey non-empty" invariant and no pre-network failure. -/
theorem c5_counterexample :
    GuardianIntelClient.construct { apiKey := "" }
      = .ok { baseURL := "https://threat-intel-api.abusix.com/beta"
            , headers :=
                [ ("Authorization", "Bearer ")
                , ("Content-Type", "application/json")
                , ("User-Agent", "@abusix/guardian-intel-mcp-server/1.0.0") ]
            , timeout := 30000 }
    ∧ GuardianIntelClient.construct { apiKey := "   " }
      = .ok { baseURL := "https://threat-intel-api.abusix.com/beta"
            , headers :=
                [ ("Authorization", "Bearer    ")
                , ("Content-Type", "application/json")
                , ("User-Agent", "@abusix/guardian-intel-mcp-server/1.0.0") ]
            , timeout := 30000 } := by
  exact ⟨rfl, rfl⟩

/-- C6 (amended): an otherwise-valid `getTagIps` call with fractional
`offset`/`limit` is accepted, and the values are placed into the outgoing
query parameters exactly as given — no truncation of any kind occurs. -/
theorem c6_fractional_passthrough (tagName : String) (o l : Rat) (snap : Option String)
    (h0 : trimIsEmpty tagName = false) (h1 : l ≤ 10000) (h2 : 0 ≤ o) (h3 : 1 ≤ l) :
    GuardianIntelClient.getTagIpsRequest tagName
        { offset := some o, limit := some l, snapshot := snap }
      = .ok { tagName := tagName, offset := o, limit := l
            , snapshot :=
                match snap with
                | some s => if s.isEmpty then none else some s
                | none => none } := by
  simp only [GuardianIntelClient.getTagIpsRequest, h0, Bool.false_eq_true, if_false,
    Option.getD_some]
  rw [if_neg (not_lt.mpr h1), if_neg (by push_neg; exact ⟨h2, h3⟩)]

/-- Witness for C6: the fractional request `{offset: 5.7, limit: 100.9}` is
accepted and both values pass through unchanged. -/
theorem c6_fractional_passthrough_witness :
    GuardianIntelClient.getTagIpsRequest "test-tag"
        { offset := some ((57 : Rat)/10), limit := some ((1009 : Rat)/10), snapshot := none }
      = .ok { tagName := "test-tag", offset := (57 : Rat)/10, limit := (1009 : Rat)/10
            , snapshot := none } := by
  exact c6_fractional_passthrough "test-tag" ((57 : Rat)/10) ((1009 : Rat)/10) none
    (by decide) (by norm_num) (by norm_num) (by norm_num)

/-- Counterexample for C6 as stated: with `offset = 5.7` and `limit = 100.9`
the outgoing parameters are `5.7` and `100.9` themselves, not the
truncations `5` and `100`. -/
theorem c6_counterexample :
    GuardianIntelClient.getTagIpsRequest "test-tag"
        { offset := some ((57 : Rat)/10), limit := some ((1009 : Rat)/10), snapshot := none }
      = .ok { tagName := "test-tag", offset := (57 : Rat)/10, limit := (1009 : Rat)/10
            , snapshot := none }
    ∧ (57 : Rat)/10 ≠ 5 ∧ (1009 : Rat)/10 ≠ 100 := by
  refine ⟨?_, by norm_num, by norm_num⟩
  have h0 : trimIsEmpty "test-tag" = false := by decide
  simp only [GuardianIntelClient.getTagIpsRequest, h0, Bool.false_eq_true, if_false,
    Option.getD_some]
  rw [if_neg (by norm_num), if_neg (by push_neg; constructor <;> norm_num)]

/-- C7 (amended): on any 2xx answer the client returns the decoded payload
unchanged — it performs no wrapper-field check and never fails with an
invalid-response error; a payload missing `result` is returned as-is. -/
theorem c7_lookup_returns_payload_unchecked (ip : String)
    (net : String → Except AxiosError LookupResponse) (resp : LookupResponse)
    (hv : GuardianIntelClient.isValidIpAddress ip = true) (hn : net ip = .ok resp) :
    GuardianIntelClient.lookupIp ip net = .ok resp := by
  simp [GuardianIntelClient.lookupIp, hv, hn]

/-- Witness for C7: a concrete 2xx payload (with its wrapper present) is
returned unchanged. -/
theorem c7_lookup_returns_payload_unchecked_witness :
    GuardianIntelClient.lookupIp "1.2.3.4" (fun _ => .ok sampleLookupResponse)
      = .ok sampleLookupResponse := by
  exact c7_lookup_returns_payload_unchecked "1.2.3.4" _ sampleLookupResponse (by decide) rfl

/-- Counterexample for C7 as stated: a 2xx payload missing the expected
`result` wrapper is returned successfully by the client, not rejected with
an invalid-response error. -/
theorem c7_counterexample :
    GuardianIntelClient.lookupIp "1.2.3.4" (fun _ => .ok wrapperlessLookupResponse)
      = .ok wrapperlessLookupResponse
    ∧ wrapperlessLookupResponse.result = none := by
  exact ⟨rfl, rfl⟩

/-- C8 (confirmed): any successful tag-ips dispatch output satisfies
`has_more = (offset + returned) < total` over its own pagination fields,
`returned` counts the returned entries, and the summary is exactly
`Found {returned} IP addresses associated with tag '{tag}'`. -/
theorem c8_tag_ips_pagination (client : ClientIface) (args : ToolArgs) (o : TagIpsOutput)
    (h : GuardianIntelTools.executeTool client "guardian_intel_tag_ips" args
        = .ok (.tagIps o)) :
    o.pagination.has_more
      = decide (o.pagination.offset + (o.pagination.returned : Rat) < (o.pagination.total : Rat))
    ∧ o.pagination.returned = o.ip_addresses.length
    ∧ o.summary = "Found " ++ toString o.pagination.returned
        ++ " IP addresses associated with tag \x27" ++ o.tag ++ "\x27" := by
  cases hres : client.getTagIps args.tagName
      { offset := args.offset, limit := args.limit, snapshot := args.snapshot } with
  | error e =>
    have hx : GuardianIntelTools.executeTool client "guardian_intel_tag_ips" args
        = .error ("Tool execution failed: " ++ jsErrorText e) := by
      simp [GuardianIntelTools.executeTool, GuardianIntelTools.tagIpsHandler, hres]
    rw [hx] at h
    exact absurd h (by simp)
  | ok resp =>
    have hx : GuardianIntelTools.executeTool client "guardian_intel_tag_ips" args
        = .ok (.tagIps
          { tag := resp.result.tag
          , ip_addresses := resp.result.entries
          , pagination :=
              { total := resp.result.total
              , returned := resp.result.entries.length
              , offset := jsOrRat args.offset 0
              , limit := jsOrRat args.limit 1000
              , has_more := decide (jsOrRat args.offset 0 + (resp.result.entries.length : Rat)
                  < (resp.result.total : Rat)) }
          , last_update := resp.result.lastUpdate
          , snapshot := resp.result.snapshot
          , summary := "Found " ++ toString resp.result.entries.length
              ++ " IP addresses associated with tag \x27" ++ resp.result.tag ++ "\x27" }) := by
      simp [GuardianIntelTools.executeTool, GuardianIntelTools.tagIpsHandler, hres]
    rw [hx] at h
    injection h with h1
    injection h1 with h2
    subst h2
    exact ⟨rfl, rfl, rfl⟩

/-- The arguments of the concrete tag-ips dispatches below. -/
def tagIpsArgsW : ToolArgs := { tagName := "credentials:brute-force", offset := some 0 }

/-- The output the dispatcher produces for `tagIpsResponseA`
(total 1000, two entries returned: more remain). -/
def tagIpsOutputA : TagIpsOutput :=
  { tag := "credentials:brute-force"
  , ip_addresses := ["1.2.3.4", "5.6.7.8"]
  , pagination := { total := 1000, returned := 2, offset := 0, limit := 1000, has_more := true }
  , last_update := "2024-01-01T00:00:00Z"
  , snapshot := "snap-1"
  , summary := "Found 2 IP addresses associated with tag \x27credentials:brute-force\x27" }

/-- The output the dispatcher produces for `tagIpsResponseB`
(total 2, two entries returned: nothing remains). -/
def tagIpsOutputB : TagIpsOutput :=
  { tag := "credentials:brute-force"
  , ip_addresses := ["1.2.3.4", "5.6.7.8"]
  , pagination := { total := 2, returned := 2, offset := 0, limit := 1000, has_more := false }
  , last_update := "2024-01-01T00:00:00Z"
  , snapshot := "snap-1"
  , summary := "Found 2 IP addresses associated with tag \x27credentials:brute-force\x27" }

/-- Witness for C8 at the claim's concrete instances: with total 1000,
offset 0, returned 2 the flag is true; with total 2 it is false. -/
theorem c8_tag_ips_pagination_witness :
    (tagIpsOutputA.pagination.has_more
      = decide (tagIpsOutputA.pagination.offset + (tagIpsOutputA.pagination.returned : Rat)
          < (tagIpsOutputA.pagination.total : Rat))
    ∧ tagIpsOutputA.pagination.returned = tagIpsOutputA.ip_addresses.length
    ∧ tagIpsOutputA.summary = "Found " ++ toString tagIpsOutputA.pagination.returned
        ++ " IP addresses associated with tag \x27" ++ tagIpsOutputA.tag ++ "\x27")
    ∧ tagIpsOutputA.pagination.has_more = true
    ∧ tagIpsOutputB.pagination.has_more = false := by
  have hA : GuardianIntelTools.executeTool (tagIpsOnlyIface (.ok tagIpsResponseA))
      "guardian_intel_tag_ips" tagIpsArgsW = .ok (.tagIps tagIpsOutputA) := by
    simp [GuardianIntelTools.executeTool, GuardianIntelTools.tagIpsHandler,
      tagIpsOnlyIface, tagIpsResponseA, tagIpsArgsW, tagIpsOutputA, jsOrRat]
    norm_num
    decide
  have hB : GuardianIntelTools.executeTool (tagIpsOnlyIface (.ok tagIpsResponseB))
      "guardian_intel_tag_ips" tagIpsArgsW = .ok (.tagIps tagIpsOutputB) := by
    simp [GuardianIntelTools.executeTool, GuardianIntelTools.tagIpsHandler,
      tagIpsOnlyIface, tagIpsResponseB, tagIpsArgsW, tagIpsOutputB, jsOrRat]
    decide
  refine ⟨c8_tag_ips_pagination _ _ _ hA, ?_, ?_⟩
  · rfl
  · have h := c8_tag_ips_pagination (tagIpsOnlyIface (.ok tagIpsResponseB)) tagIpsArgsW
      tagIpsOutputB hB
    rw [h.1]
    exact decide_eq_false (by simp [tagIpsOutputB])

/-- C9 (amended): a successful lookup dispatch produces an output with `ip`,
`classification`, derived `threat_level`, pass-through `first_seen`,
`last_seen`, `abuse_contact`, pass-through-or-null `asn`, `blocklists` and
`malicious_activities` defaulted to empty sequences, and a summary that
begins `IP is classified as {CLASSIFICATION upper-cased}`, appends
`" and appears on {k} blocklist(s)"` when blocklists are present, appends
`". Observed activities: {types joined by ', '}"` when activities are
present, and appends `". First seen: {first_seen}"` when `first_seen` is
present.  (No `tags`, `confidence` or `observed_activity` fields exist.) -/
theorem c9_lookup_output_shape (client : ClientIface) (args : ToolArgs)
    (resp : LookupResponse) (r : LookupResult)
    (hcl : client.lookupIp args.ip = .ok resp) (hr : resp.result = some r) :
    GuardianIntelTools.executeTool client "guardian_intel_lookup" args
      = .ok (.lookup
        { ip := r.ip
        , classification := r.classification
        , threat_level := GuardianIntelTools.getAggregatedThreatLevel r.classification
        , first_seen := r.firstSeen
        , last_seen := r.lastSeen
        , abuse_contact := r.abuseContact
        , asn := r.asn
        , blocklists := r.blocklists.getD []
        , malicious_activities := r.activities.getD []
        , summary := spec_lookupSummary r }) := by
  simp [GuardianIntelTools.executeTool, GuardianIntelTools.lookupHandler, hcl, hr,
    generateThreatSummary_eq_spec]

/-- Witness for C9: the minimal malicious lookup payload produces the
expected fully-evaluated output. -/
theorem c9_lookup_output_shape_witness :
    GuardianIntelTools.executeTool (lookupOnlyIface (.ok sampleLookupResponse))
        "guardian_intel_lookup" { ip := "1.2.3.4" }
      = .ok (.lookup
        { ip := "1.2.3.4", classification := "malicious", threat_level := "HIGH"
        , first_seen := none, last_seen := none, abuse_contact := none, asn := none
        , blocklists := [], malicious_activities := []
        , summary := "IP is classified as MALICIOUS" }) := by
  have h := c9_lookup_output_shape (lookupOnlyIface (.ok sampleLookupResponse))
    { ip := "1.2.3.4" } sampleLookupResponse sampleLookupResult rfl rfl
  rw [h]
  rfl

/-- Counterexample for C9 as stated: the generated summary for a malicious
result with no tags is `IP is classified as MALICIOUS`; it does not begin
with `IP threat level:` as the claim requires. -/
theorem c9_counterexample :
    GuardianIntelTools.executeTool (lookupOnlyIface (.ok sampleLookupResponse))
        "guardian_intel_lookup" { ip := "1.2.3.4" }
      = .ok (.lookup
        { ip := "1.2.3.4", classification := "malicious", threat_level := "HIGH"
        , first_seen := none, last_seen := none, abuse_contact := none, asn := none
        , blocklists := [], malicious_activities := []
        , summary := "IP is classified as MALICIOUS" })
    ∧ strTake 16 "IP is classified as MALICIOUS" ≠ "IP threat level:" := by
  exact ⟨rfl, by decide⟩

/-- C10 (confirmed): in a successful lookup dispatch the derived
`threat_level` is determined solely by the case-insensitive classification:
`HIGH` for `malicious`, `MEDIUM` for `suspicious`, `LOW` for `unknown`, and
`UNKNOWN` for anything else. -/
theorem c10_threat_level_classification (client : ClientIface) (args : ToolArgs)
    (resp : LookupResponse) (r : LookupResult) (o : LookupOutput)
    (hcl : client.lookupIp args.ip = .ok resp) (hr : resp.result = some r)
    (ho : GuardianIntelTools.executeTool client "guardian_intel_lookup" args
        = .ok (.lookup o)) :
    (jsToLower r.classification = "malicious" → o.threat_level = "HIGH")
    ∧ (jsToLower r.classification = "suspicious" → o.threat_level = "MEDIUM")
    ∧ (jsToLower r.classification = "unknown" → o.threat_level = "LOW")
    ∧ (jsToLower r.classification ≠ "malicious" →
       jsToLower r.classification ≠ "suspicious" →
       jsToLower r.classification ≠ "unknown" → o.threat_level = "UNKNOWN") := by
  have hx : GuardianIntelTools.executeTool client "guardian_intel_lookup" args
      = .ok (.lookup
        { ip := r.ip
        , classification := r.classification
        , threat_level := GuardianIntelTools.getAggregatedThreatLevel r.classification
        , first_seen := r.firstSeen
        , last_seen := r.lastSeen
        , abuse_contact := r.abuseContact
        , asn := r.asn
        , blocklists := r.blocklists.getD []
        , malicious_activities := r.activities.getD []
        , summary := GuardianIntelTools.generateThreatSummary r }) := by
    simp [GuardianIntelTools.executeTool, GuardianIntelTools.lookupHandler, hcl, hr]
  rw [hx] at ho
  injection ho with h1
  injection h1 with h2
  subst h2
  refine ⟨?_, ?_, ?_, ?_⟩
  · intro h
    simp [GuardianIntelTools.getAggregatedThreatLevel, h]
  · intro h
    simp [GuardianIntelTools.getAggregatedThreatLevel, h]
  · intro h
    simp [GuardianIntelTools.getAggregatedThreatLevel, h]
  · intro h1 h2 h3
    simp only [GuardianIntelTools.getAggregatedThreatLevel]
    rw [if_neg h1, if_neg h2, if_neg h3]

/-- The upper-cased variant of the sample lookup payload. -/
def upperLookupResult : LookupResult :=
  { sampleLookupResult with classification := "MALICIOUS" }

/-- A 2xx payload wrapping `upperLookupResult`. -/
def upperLookupResponse : LookupResponse :=
  { status := "success", statusCode := 200, result := some upperLookupResult }

/-- The output the dispatcher produces for `upperLookupResponse`. -/
def upperLookupOutput : LookupOutput :=
  { ip := "1.2.3.4", classification := "MALICIOUS", threat_level := "HIGH"
  , first_seen := none, last_seen := none, abuse_contact := none, asn := none
  , blocklists := [], malicious_activities := []
  , summary := "IP is classified as MALICIOUS" }

/-- Witness for C10: classification `MALICIOUS` (upper-case) yields threat
level `HIGH` through the dispatch. -/
theorem c10_threat_level_classification_witness :
    upperLookupOutput.threat_level = "HIGH" := by
  have h := c10_threat_level_classification (lookupOnlyIface (.ok upperLookupResponse))
    { ip := "1.2.3.4" } upperLookupResponse upperLookupResult upperLookupOutput
    rfl rfl (by rfl)
  exact h.1 (by decide)
